import Mathlib

/-!
Verification of `src/shared/python-utilities/sql_utils.py`.

The module has two functions, `get_db_connection` (connection acquisition with
retry/backoff) and `execute_query` (run one query, release the connection), plus
a standalone `__main__` smoke test.  We embed them shallowly: the external world
(the psycopg2 driver and the configuration object) is modelled by explicit
parameters — an `Option String` for `config.DATABASE_URL` (with Python
truthiness: `None` and `""` are falsy) and an oracle `Nat → ConnectOutcome`
giving the outcome of the i-th `psycopg2.connect` call of a run.  Side effects
(prints to stdout, `time.sleep`, connect attempts, `conn.close()`) are recorded
as an explicit event trace.
-/

namespace SqlUtils

/-- `DB_CONNECT_TIMEOUT = 120` (sql_utils.py line 15). -/
def DB_CONNECT_TIMEOUT : Nat := 120

/-- `MAX_RETRIES = 3` (line 18).  Modelled as `Int` because `retry_count`
is a Python int and is compared against it. -/
def MAX_RETRIES : Int := 3

/-- `RETRY_DELAY_BASE = 5` (line 19). -/
def RETRY_DELAY_BASE : Nat := 5

/-- Python truthiness of the `DATABASE_URL` configuration value
(line 34 `if db_url:`): `None` and the empty string are falsy. -/
def pyTruthy : Option String → Bool
  | none => false
  | some s => s ≠ ""

/-- Python's substring test `pat in s` (used at line 46 `'sslmode=' not in db_url`). -/
def strContainsSub (s pat : String) : Bool :=
  decide (pat.data <:+: s.data)

/-- Python's single-character membership test `c in s` (lines 36 and 47). -/
def pyIn (c : Char) (s : String) : Bool :=
  s.data.contains c

/-- Python's `str.split(sep)` for a one-character separator, on the character
list of the string: splitting on every occurrence of `sep`, keeping empty
pieces (so the result is always non-empty). -/
def pySplit (sep : Char) : List Char → List (List Char)
  | [] => [[]]
  | c :: cs =>
    match pySplit sep cs with
    | [] => [[]]
    | cur :: rest => if c = sep then [] :: cur :: rest else (c :: cur) :: rest

/-- Line 36: `db_url.split('@')[-1] if '@' in db_url else 'URL set but format unclear'`
(the `[-1]` takes the last piece, i.e. the part after the last `@`). -/
def safeUrl (dbUrl : String) : String :=
  if pyIn '@' dbUrl then { data := (pySplit '@' dbUrl.data).getLastD [] }
  else "URL set but format unclear"

/-- Lines 46–48: the connection string actually handed to `psycopg2.connect` —
unchanged when it already mentions `sslmode=`, otherwise with
`?sslmode=require` (or `&sslmode=require` when a query string is present)
appended. -/
def sslAdjustedUrl (url : String) : String :=
  if strContainsSub url "sslmode=" then url
  else url ++ (if pyIn '?' url then "&" else "?") ++ "sslmode=require"

/-- Outcome of one `psycopg2.connect` call, supplied by the world oracle:
success, a `psycopg2.OperationalError` (line 54), or any other exception
(line 67). -/
inductive ConnectOutcome where
  | ok : ConnectOutcome
  | opError (msg : String) : ConnectOutcome
  | otherError (msg : String) : ConnectOutcome
deriving DecidableEq

/-- Observable side effects of a run: a line printed to stdout, a
`time.sleep(delay)` (delay in seconds; rational, since
`RETRY_DELAY_BASE * 2 ** retry_count` is fractional for negative
`retry_count`), a `psycopg2.connect(url, connect_timeout=t)` call, and a
`conn.close()` call. -/
inductive Event where
  | printLine (s : String) : Event
  | sleep (secs : ℚ) : Event
  | connectAttempt (url : String) (timeout : Nat) : Event
  | queryExec (sql : String) (params : Option (List String)) : Event
  | close : Event
deriving DecidableEq

/-- Line 60: `delay = RETRY_DELAY_BASE * (2 ** retry_count)`. -/
def retryDelay (retry_count : Int) : ℚ :=
  (RETRY_DELAY_BASE : ℚ) * (2 : ℚ) ^ retry_count

/-- Rendering of the delay in the retry message (an `int` for nonnegative
`retry_count`, printed without a decimal point). -/
def delayStr (q : ℚ) : String :=
  if q.den = 1 then toString q.num else toString q

/-- Lines 36–38: the two diagnostic lines printed before a connection attempt. -/
def headerEvents (url : String) : List Event :=
  [Event.printLine ("[sql_utils] Attempting DB connection to: ...@" ++ safeUrl url),
   Event.printLine ("[sql_utils] Connect timeout: " ++ toString DB_CONNECT_TIMEOUT ++ "s")]

/-- Line 49: printed only when `sslmode=require` was appended. -/
def sslEvents (url : String) : List Event :=
  if strContainsSub url "sslmode=" then []
  else [Event.printLine "[sql_utils] Added sslmode=require to connection string"]

/-- Line 55 message. -/
def couldNotMsg (msg : String) : String :=
  "[sql_utils] ERROR: Could not connect to the database: " ++ msg

/-- Line 61 message. -/
def retryingMsg (retry_count : Int) : String :=
  "[sql_utils] Retrying connection in " ++ delayStr (retryDelay retry_count) ++
    "s (attempt " ++ toString (retry_count + 1) ++ "/" ++ toString MAX_RETRIES ++ ")..."

/-- Line 65 message. -/
def allFailedMsg : String :=
  "[sql_utils] All " ++ toString MAX_RETRIES ++ " connection attempts failed"

/-- Line 68 message. -/
def unexpectedMsg (msg : String) : String :=
  "[sql_utils] ERROR: Unexpected error connecting to database: " ++ msg

/-- Line 52 message. -/
def establishedMsg : String :=
  "[sql_utils] Database connection established successfully"

/-- Line 40 message. -/
def notSetMsg : String :=
  "[sql_utils] ERROR: DATABASE_URL is not set!"

/-- `get_db_connection(retry_count)` (lines 21–70).  `dbUrl` models
`config.DATABASE_URL`; `world` gives the outcome of each connect call,
indexed by `attemptIdx`, the number of connect calls already made in this
run (the embedding's clock — the source itself has no such variable).
Returns the connection (modelled by the final URL handed to the driver,
`none` on failure) together with the trace of side effects. -/
def get_db_connection (dbUrl : Option String) (world : Nat → ConnectOutcome)
    (attemptIdx : Nat) (retry_count : Int) : Option String × List Event :=
  if pyTruthy dbUrl then
    let url := dbUrl.getD ""
    let url2 := sslAdjustedUrl url
    let pre := headerEvents url ++ sslEvents url ++
      [Event.connectAttempt url2 DB_CONNECT_TIMEOUT]
    match world attemptIdx with
    | ConnectOutcome.ok =>
        (some url2, pre ++ [Event.printLine establishedMsg])
    | ConnectOutcome.otherError msg =>
        (none, pre ++ [Event.printLine (unexpectedMsg msg)])
    | ConnectOutcome.opError msg =>
        if retry_count < MAX_RETRIES then
          let rest := get_db_connection dbUrl world (attemptIdx + 1) (retry_count + 1)
          (rest.1, pre ++
            [Event.printLine (couldNotMsg msg),
             Event.printLine (retryingMsg retry_count),
             Event.sleep (retryDelay retry_count)] ++ rest.2)
        else
          (none, pre ++
            [Event.printLine (couldNotMsg msg),
             Event.printLine allFailedMsg])
  else
    (none, [Event.printLine notSetMsg])
termination_by (MAX_RETRIES - retry_count).toNat
decreasing_by
  simp only [MAX_RETRIES] at *
  omega

/-- Number of `psycopg2.connect` calls in a trace. -/
def numConnects : List Event → Nat
  | [] => 0
  | Event.printLine _ :: t => numConnects t
  | Event.sleep _ :: t => numConnects t
  | Event.connectAttempt _ _ :: t => numConnects t + 1
  | Event.queryExec _ _ :: t => numConnects t
  | Event.close :: t => numConnects t

/-- The sleeps of a trace, in order, in seconds. -/
def sleepList : List Event → List ℚ
  | [] => []
  | Event.printLine _ :: t => sleepList t
  | Event.sleep q :: t => q :: sleepList t
  | Event.connectAttempt _ _ :: t => sleepList t
  | Event.queryExec _ _ :: t => sleepList t
  | Event.close :: t => sleepList t

/-- The lines a trace printed to stdout, in order. -/
def printedLines : List Event → List String
  | [] => []
  | Event.printLine s :: t => s :: printedLines t
  | Event.sleep _ :: t => printedLines t
  | Event.connectAttempt _ _ :: t => printedLines t
  | Event.queryExec _ _ :: t => printedLines t
  | Event.close :: t => printedLines t

/-- The connection strings handed to `psycopg2.connect`, in order. -/
def connectUrls : List Event → List String
  | [] => []
  | Event.printLine _ :: t => connectUrls t
  | Event.sleep _ :: t => connectUrls t
  | Event.connectAttempt u _ :: t => u :: connectUrls t
  | Event.queryExec _ _ :: t => connectUrls t
  | Event.close :: t => connectUrls t

/-- The SQL texts handed to `cur.execute`, in order. -/
def queryTexts : List Event → List String
  | [] => []
  | Event.printLine _ :: t => queryTexts t
  | Event.sleep _ :: t => queryTexts t
  | Event.connectAttempt _ _ :: t => queryTexts t
  | Event.queryExec sql _ :: t => sql :: queryTexts t
  | Event.close :: t => queryTexts t

/-- Number of `conn.close()` calls in a trace. -/
def numCloses : List Event → Nat
  | [] => 0
  | Event.printLine _ :: t => numCloses t
  | Event.sleep _ :: t => numCloses t
  | Event.connectAttempt _ _ :: t => numCloses t
  | Event.queryExec _ _ :: t => numCloses t
  | Event.close :: t => numCloses t + 1

/-- The events up to and including the `psycopg2.connect` call of one attempt:
the two header lines, possibly the `sslmode` line, then the connect call. -/
def preEvents (url : String) : List Event :=
  headerEvents url ++ sslEvents url ++
    [Event.connectAttempt (sslAdjustedUrl url) DB_CONNECT_TIMEOUT]

/-- The stdout lines of `preEvents`. -/
def preLines (url : String) : List String :=
  ["[sql_utils] Attempting DB connection to: ...@" ++ safeUrl url,
   "[sql_utils] Connect timeout: " ++ toString DB_CONNECT_TIMEOUT ++ "s"] ++
  (if strContainsSub url "sslmode=" then []
   else ["[sql_utils] Added sslmode=require to connection string"])

/-- A key of a Python dict: the rows produced by `RealDictCursor` are dicts
keyed by column name (a string); the `__main__` block also indexes a row with
the integer `0`, so keys of either type must be representable. -/
inductive PyKey where
  | str (s : String)
  | int (n : Int)
deriving DecidableEq

/-- One result row, as produced by `RealDictCursor`: a mapping from column
name to value (values modelled as strings; their precise type is irrelevant
to every claim). -/
abbrev Row := List (PyKey × String)

/-- Outcome of the cursor block of `execute_query` (lines 91–93), supplied by
the world: either the fetched rows or an exception raised during cursor
creation, `cur.execute`, or `fetchall`/row conversion. -/
inductive QueryOutcome where
  | rows (rs : List Row) : QueryOutcome
  | raise (msg : String) : QueryOutcome

/-- `execute_query(query, params)` (lines 72–100).  `dbUrl` and `cw` feed the
inner `get_db_connection()` call; `qw` gives the outcome of the cursor block.
Returns the rows (`none` models Python's `None` result) and the event trace;
the `finally` block closes the connection exactly when one was obtained. -/
def execute_query (dbUrl : Option String) (cw : Nat → ConnectOutcome)
    (qw : QueryOutcome) (query : String) (params : Option (List String)) :
    Option (List Row) × List Event :=
  let acq := get_db_connection dbUrl cw 0 0
  match acq.1 with
  | none => (none, acq.2)
  | some _ =>
    match qw with
    | QueryOutcome.rows rs =>
        (some rs, acq.2 ++ [Event.queryExec query params, Event.close])
    | QueryOutcome.raise m =>
        (none, acq.2 ++
          [Event.queryExec query params,
           Event.printLine ("Error executing query: " ++ m),
           Event.close])

/-- The `if __name__ == '__main__':` block (lines 103–113).  Returns the event
trace together with the uncaught exception terminating the run, if any:
`version[0][0]` on line 111 looks the key `0` up in a `RealDictCursor` row,
whose keys are the column names, so a failed lookup is an uncaught `KeyError`. -/
def moduleMain (dbUrl : Option String) (cw : Nat → ConnectOutcome)
    (qw : QueryOutcome) : List Event × Option String :=
  let res := execute_query dbUrl cw qw "SELECT version();" none
  let evs := Event.printLine "Testing database connection..." :: res.2
  match res.1 with
  | some (row :: _) =>
      let evs := evs ++ [Event.printLine "Successfully connected to PostgreSQL."]
      match row.lookup (PyKey.int 0) with
      | some v => (evs ++ [Event.printLine ("Database version: " ++ v)], none)
      | none => (evs, some "KeyError: 0")
  | some [] =>
      (evs ++ [Event.printLine "Failed to connect or execute query."], none)
  | none =>
      (evs ++ [Event.printLine "Failed to connect or execute query."], none)

/-- A world delivering `f` consecutive operational connection failures (with
messages `msgs`) and succeeding from the `f`-th connect call on. -/
def failWorld (f : Nat) (msgs : Nat → String) : Nat → ConnectOutcome :=
  fun i => if i < f then ConnectOutcome.opError (msgs i) else ConnectOutcome.ok

/-- A world whose every connect call succeeds. -/
def okWorld : Nat → ConnectOutcome :=
  fun _ => ConnectOutcome.ok

/-- A world whose every connect call fails with an operational error. -/
def alwaysFailWorld : Nat → ConnectOutcome :=
  fun _ => ConnectOutcome.opError "connection timeout expired"

theorem numConnects_append (s t : List Event) :
    numConnects (s ++ t) = numConnects s + numConnects t := by
  induction s with
  | nil => simp [numConnects]
  | cons e s ih => cases e <;> simp [numConnects, ih] <;> omega

theorem sleepList_append (s t : List Event) :
    sleepList (s ++ t) = sleepList s ++ sleepList t := by
  induction s with
  | nil => simp [sleepList]
  | cons e s ih => cases e <;> simp [sleepList, ih]

theorem printedLines_append (s t : List Event) :
    printedLines (s ++ t) = printedLines s ++ printedLines t := by
  induction s with
  | nil => simp [printedLines]
  | cons e s ih => cases e <;> simp [printedLines, ih]

theorem connectUrls_append (s t : List Event) :
    connectUrls (s ++ t) = connectUrls s ++ connectUrls t := by
  induction s with
  | nil => simp [connectUrls]
  | cons e s ih => cases e <;> simp [connectUrls, ih]

theorem queryTexts_append (s t : List Event) :
    queryTexts (s ++ t) = queryTexts s ++ queryTexts t := by
  induction s with
  | nil => simp [queryTexts]
  | cons e s ih => cases e <;> simp [queryTexts, ih]

theorem numCloses_append (s t : List Event) :
    numCloses (s ++ t) = numCloses s + numCloses t := by
  induction s with
  | nil => simp [numCloses]
  | cons e s ih => cases e <;> simp [numCloses, ih] <;> omega

/-- Unfolding `get_db_connection` when `DATABASE_URL` is falsy (lines 39–41). -/
theorem run_not_set (dbUrl : Option String) (w : Nat → ConnectOutcome) (a : Nat)
    (rc : Int) (h : pyTruthy dbUrl = false) :
    get_db_connection dbUrl w a rc = (none, [Event.printLine notSetMsg]) := by
  rw [get_db_connection]
  simp [h]

/-- Unfolding `get_db_connection` when the connect call succeeds (lines 51–53). -/
theorem run_ok (u : String) (w : Nat → ConnectOutcome) (a : Nat) (rc : Int)
    (hu : u ≠ "") (hw : w a = ConnectOutcome.ok) :
    get_db_connection (some u) w a rc =
      (some (sslAdjustedUrl u), preEvents u ++ [Event.printLine establishedMsg]) := by
  rw [get_db_connection]
  simp [pyTruthy, hu, hw, preEvents]

/-- Unfolding `get_db_connection` on a non-operational exception (lines 67–70). -/
theorem run_other (u : String) (w : Nat → ConnectOutcome) (a : Nat) (rc : Int)
    (m : String) (hu : u ≠ "") (hw : w a = ConnectOutcome.otherError m) :
    get_db_connection (some u) w a rc =
      (none, preEvents u ++ [Event.printLine (unexpectedMsg m)]) := by
  rw [get_db_connection]
  simp [pyTruthy, hu, hw, preEvents]

/-- Unfolding `get_db_connection` on an operational error with retry budget
left (lines 54–63): print, sleep, recurse with `retry_count + 1`. -/
theorem run_op_retry (u : String) (w : Nat → ConnectOutcome) (a : Nat) (rc : Int)
    (m : String) (hu : u ≠ "") (hw : w a = ConnectOutcome.opError m)
    (hrc : rc < MAX_RETRIES) :
    get_db_connection (some u) w a rc =
      ((get_db_connection (some u) w (a + 1) (rc + 1)).1,
        preEvents u ++
          [Event.printLine (couldNotMsg m),
           Event.printLine (retryingMsg rc),
           Event.sleep (retryDelay rc)] ++
          (get_db_connection (some u) w (a + 1) (rc + 1)).2) := by
  rw [get_db_connection]
  simp [pyTruthy, hu, hw, hrc, preEvents]

/-- Unfolding `get_db_connection` on an operational error with the retry
budget exhausted (lines 59, 65–66). -/
theorem run_op_last (u : String) (w : Nat → ConnectOutcome) (a : Nat) (rc : Int)
    (m : String) (hu : u ≠ "") (hw : w a = ConnectOutcome.opError m)
    (hrc : ¬ rc < MAX_RETRIES) :
    get_db_connection (some u) w a rc =
      (none, preEvents u ++
        [Event.printLine (couldNotMsg m), Event.printLine allFailedMsg]) := by
  rw [get_db_connection]
  simp [pyTruthy, hu, hw, hrc, preEvents]

theorem numConnects_pre (u : String) : numConnects (preEvents u) = 1 := by
  unfold preEvents headerEvents sslEvents
  cases h : strContainsSub u "sslmode=" <;>
    simp [h, numConnects_append, numConnects]

theorem sleepList_pre (u : String) : sleepList (preEvents u) = [] := by
  unfold preEvents headerEvents sslEvents
  cases h : strContainsSub u "sslmode=" <;>
    simp [h, sleepList_append, sleepList]

theorem printedLines_pre (u : String) : printedLines (preEvents u) = preLines u := by
  unfold preEvents preLines headerEvents sslEvents
  cases h : strContainsSub u "sslmode=" <;>
    simp [h, printedLines_append, printedLines]

theorem connectUrls_pre (u : String) : connectUrls (preEvents u) = [sslAdjustedUrl u] := by
  unfold preEvents headerEvents sslEvents
  cases h : strContainsSub u "sslmode=" <;>
    simp [h, connectUrls_append, connectUrls]

theorem queryTexts_pre (u : String) : queryTexts (preEvents u) = [] := by
  unfold preEvents headerEvents sslEvents
  cases h : strContainsSub u "sslmode=" <;>
    simp [h, queryTexts_append, queryTexts]

theorem numCloses_pre (u : String) : numCloses (preEvents u) = 0 := by
  unfold preEvents headerEvents sslEvents
  cases h : strContainsSub u "sslmode=" <;>
    simp [h, numCloses_append, numCloses]

/-- Single-run trace facts, by induction on the remaining retry budget:
a `get_db_connection` run never closes a connection, never issues a query,
hands the driver only the `sslmode`-adjusted configured URL, and makes at
most `(MAX_RETRIES - retry_count).toNat + 1` connect calls. -/
theorem run_trace_facts (u : String) (w : Nat → ConnectOutcome) (a : Nat)
    (rc : Int) (hu : u ≠ "") :
    numCloses (get_db_connection (some u) w a rc).2 = 0 ∧
    queryTexts (get_db_connection (some u) w a rc).2 = [] ∧
    (∀ v ∈ connectUrls (get_db_connection (some u) w a rc).2, v = sslAdjustedUrl u) ∧
    numConnects (get_db_connection (some u) w a rc).2 ≤ (MAX_RETRIES - rc).toNat + 1 := by
  have key : ∀ (n : Nat) (a : Nat) (rc : Int), (MAX_RETRIES - rc).toNat ≤ n →
      numCloses (get_db_connection (some u) w a rc).2 = 0 ∧
      queryTexts (get_db_connection (some u) w a rc).2 = [] ∧
      (∀ v ∈ connectUrls (get_db_connection (some u) w a rc).2, v = sslAdjustedUrl u) ∧
      numConnects (get_db_connection (some u) w a rc).2 ≤ (MAX_RETRIES - rc).toNat + 1 := by
    intro n
    induction n with
    | zero =>
      intro a rc hn
      have hrc : ¬ rc < MAX_RETRIES := by
        simp only [MAX_RETRIES] at *
        omega
      cases hw : w a with
      | ok =>
        rw [run_ok u w a rc hu hw]
        simp only [numCloses_append, numCloses_pre, queryTexts_append,
          queryTexts_pre, connectUrls_append, connectUrls_pre,
          numConnects_append, numConnects_pre]
        refine ⟨by simp [numCloses], by simp [queryTexts], ?_, by simp [numConnects]⟩
        intro v hv
        simp [connectUrls] at hv
        exact hv
      | otherError m =>
        rw [run_other u w a rc m hu hw]
        simp only [numCloses_append, numCloses_pre, queryTexts_append,
          queryTexts_pre, connectUrls_append, connectUrls_pre,
          numConnects_append, numConnects_pre]
        refine ⟨by simp [numCloses], by simp [queryTexts], ?_, by simp [numConnects]⟩
        intro v hv
        simp [connectUrls] at hv
        exact hv
      | opError m =>
        rw [run_op_last u w a rc m hu hw hrc]
        simp only [numCloses_append, numCloses_pre, queryTexts_append,
          queryTexts_pre, connectUrls_append, connectUrls_pre,
          numConnects_append, numConnects_pre]
        refine ⟨by simp [numCloses], by simp [queryTexts], ?_, by simp [numConnects]⟩
        intro v hv
        simp [connectUrls] at hv
        exact hv
    | succ n ih =>
      intro a rc hn
      cases hw : w a with
      | ok =>
        rw [run_ok u w a rc hu hw]
        simp only [numCloses_append, numCloses_pre, queryTexts_append,
          queryTexts_pre, connectUrls_append, connectUrls_pre,
          numConnects_append, numConnects_pre]
        refine ⟨by simp [numCloses], by simp [queryTexts], ?_, by simp [numConnects]⟩
        intro v hv
        simp [connectUrls] at hv
        exact hv
      | otherError m =>
        rw [run_other u w a rc m hu hw]
        simp only [numCloses_append, numCloses_pre, queryTexts_append,
          queryTexts_pre, connectUrls_append, connectUrls_pre,
          numConnects_append, numConnects_pre]
        refine ⟨by simp [numCloses], by simp [queryTexts], ?_, by simp [numConnects]⟩
        intro v hv
        simp [connectUrls] at hv
        exact hv
      | opError m =>
        by_cases hrc : rc < MAX_RETRIES
        · rw [run_op_retry u w a rc m hu hw hrc]
          have hrec := ih (a + 1) (rc + 1) (by simp only [MAX_RETRIES] at *; omega)
          obtain ⟨h1, h2, h3, h4⟩ := hrec
          simp only [numCloses_append, numCloses_pre, queryTexts_append,
            queryTexts_pre, connectUrls_append, connectUrls_pre,
            numConnects_append, numConnects_pre]
          refine ⟨?_, ?_, ?_, ?_⟩
          · simp [numCloses, h1]
          · simp [queryTexts, h2]
          · intro v hv
            simp only [connectUrls, List.mem_append, List.mem_singleton,
              List.not_mem_nil, or_false, false_or] at hv
            rcases hv with h | h
            · exact h
            · exact h3 v h
          · have hstep : (MAX_RETRIES - rc).toNat = (MAX_RETRIES - (rc + 1)).toNat + 1 := by
              simp only [MAX_RETRIES] at *
              omega
            simp only [numConnects]
            omega
        · rw [run_op_last u w a rc m hu hw hrc]
          simp only [numCloses_append, numCloses_pre, queryTexts_append,
            queryTexts_pre, connectUrls_append, connectUrls_pre,
            numConnects_append, numConnects_pre]
          refine ⟨by simp [numCloses], by simp [queryTexts], ?_, by simp [numConnects]⟩
          intro v hv
          simp [connectUrls] at hv
          exact hv
  exact key (MAX_RETRIES - rc).toNat a rc le_rfl

/-- Trace facts for an arbitrary configuration value: the connection-acquirer
trace never closes a connection and never issues a query. -/
theorem run_no_close_no_query (dbUrl : Option String) (w : Nat → ConnectOutcome)
    (a : Nat) (rc : Int) :
    numCloses (get_db_connection dbUrl w a rc).2 = 0 ∧
    queryTexts (get_db_connection dbUrl w a rc).2 = [] := by
  by_cases hd : pyTruthy dbUrl = false
  · rw [run_not_set dbUrl w a rc hd]
    simp [numCloses, queryTexts]
  · have hd' : pyTruthy dbUrl = true := by
      cases h : pyTruthy dbUrl
      · exact absurd h hd
      · rfl
    obtain ⟨u, rfl⟩ : ∃ u, dbUrl = some u := by
      cases dbUrl with
      | none => simp [pyTruthy] at hd'
      | some u => exact ⟨u, rfl⟩
    have hu : u ≠ "" := by simpa [pyTruthy] using hd'
    obtain ⟨h1, h2, _, _⟩ := run_trace_facts u w a rc hu
    exact ⟨h1, h2⟩

theorem preLines_congr (u1 u2 : String) (hsafe : safeUrl u1 = safeUrl u2)
    (hssl : strContainsSub u1 "sslmode=" = strContainsSub u2 "sslmode=") :
    preLines u1 = preLines u2 := by
  unfold preLines
  rw [hsafe, hssl]

/-- Two-run fact: the stdout diagnostics of `get_db_connection` depend on the
configured connection string only through `safeUrl` (the part after the last
`@`) and through the presence of `sslmode=` in it. -/
theorem run_printed_congr (u1 u2 : String) (w : Nat → ConnectOutcome)
    (hu1 : u1 ≠ "") (hu2 : u2 ≠ "") (hsafe : safeUrl u1 = safeUrl u2)
    (hssl : strContainsSub u1 "sslmode=" = strContainsSub u2 "sslmode=")
    (a : Nat) (rc : Int) :
    printedLines (get_db_connection (some u1) w a rc).2 =
      printedLines (get_db_connection (some u2) w a rc).2 := by
  have key : ∀ (n : Nat) (a : Nat) (rc : Int), (MAX_RETRIES - rc).toNat ≤ n →
      printedLines (get_db_connection (some u1) w a rc).2 =
        printedLines (get_db_connection (some u2) w a rc).2 := by
    intro n
    induction n with
    | zero =>
      intro a rc hn
      have hrc : ¬ rc < MAX_RETRIES := by
        simp only [MAX_RETRIES] at *
        omega
      cases hw : w a with
      | ok =>
        rw [run_ok u1 w a rc hu1 hw, run_ok u2 w a rc hu2 hw]
        simp only [printedLines_append, printedLines_pre,
          preLines_congr u1 u2 hsafe hssl]
      | otherError m =>
        rw [run_other u1 w a rc m hu1 hw, run_other u2 w a rc m hu2 hw]
        simp only [printedLines_append, printedLines_pre,
          preLines_congr u1 u2 hsafe hssl]
      | opError m =>
        rw [run_op_last u1 w a rc m hu1 hw hrc, run_op_last u2 w a rc m hu2 hw hrc]
        simp only [printedLines_append, printedLines_pre,
          preLines_congr u1 u2 hsafe hssl]
    | succ n ih =>
      intro a rc hn
      cases hw : w a with
      | ok =>
        rw [run_ok u1 w a rc hu1 hw, run_ok u2 w a rc hu2 hw]
        simp only [printedLines_append, printedLines_pre,
          preLines_congr u1 u2 hsafe hssl]
      | otherError m =>
        rw [run_other u1 w a rc m hu1 hw, run_other u2 w a rc m hu2 hw]
        simp only [printedLines_append, printedLines_pre,
          preLines_congr u1 u2 hsafe hssl]
      | opError m =>
        by_cases hrc : rc < MAX_RETRIES
        · rw [run_op_retry u1 w a rc m hu1 hw hrc, run_op_retry u2 w a rc m hu2 hw hrc]
          have hrec := ih (a + 1) (rc + 1) (by simp only [MAX_RETRIES] at *; omega)
          simp only [printedLines_append, printedLines_pre,
            preLines_congr u1 u2 hsafe hssl, hrec]
        · rw [run_op_last u1 w a rc m hu1 hw hrc, run_op_last u2 w a rc m hu2 hw hrc]
          simp only [printedLines_append, printedLines_pre,
            preLines_congr u1 u2 hsafe hssl]
  exact key (MAX_RETRIES - rc).toNat a rc le_rfl

/-- Full characterization of the run against `failWorld f msgs`, starting at
`retry_count = 0`: `min (f + 1) 4` connect calls are made, and the backoff
sleeps are `5 * 2^k` for `k` up to `min f 3 - 1`. -/
theorem run_failWorld (u : String) (msgs : Nat → String) (hu : u ≠ "") (f : Nat) :
    numConnects (get_db_connection (some u) (failWorld f msgs) 0 0).2 = min (f + 1) 4 ∧
    sleepList (get_db_connection (some u) (failWorld f msgs) 0 0).2 =
      (List.range (min f 3)).map (fun k : Nat => retryDelay (k : Int)) := by
  match f with
  | 0 =>
    have h0 : failWorld 0 msgs 0 = ConnectOutcome.ok := by
      simp [failWorld]
    rw [run_ok u _ 0 0 hu h0]
    simp only [numConnects_append, numConnects_pre, sleepList_append, sleepList_pre]
    refine ⟨by simp [numConnects], by simp [sleepList]⟩
  | 1 =>
    have h0 : failWorld 1 msgs 0 = ConnectOutcome.opError (msgs 0) := by
      simp [failWorld]
    have h1 : failWorld 1 msgs 1 = ConnectOutcome.ok := by
      simp [failWorld]
    rw [run_op_retry u _ 0 0 (msgs 0) hu h0 (by decide),
      run_ok u _ 1 (0 + 1) hu h1]
    simp only [numConnects_append, numConnects_pre, sleepList_append, sleepList_pre]
    refine ⟨by simp [numConnects], ?_⟩
    simp [sleepList, List.range_succ]
  | 2 =>
    have h0 : failWorld 2 msgs 0 = ConnectOutcome.opError (msgs 0) := by
      simp [failWorld]
    have h1 : failWorld 2 msgs 1 = ConnectOutcome.opError (msgs 1) := by
      simp [failWorld]
    have h2 : failWorld 2 msgs 2 = ConnectOutcome.ok := by
      simp [failWorld]
    rw [run_op_retry u _ 0 0 (msgs 0) hu h0 (by decide),
      run_op_retry u _ 1 (0 + 1) (msgs 1) hu h1 (by decide),
      run_ok u _ 2 (0 + 1 + 1) hu h2]
    simp only [numConnects_append, numConnects_pre, sleepList_append, sleepList_pre]
    refine ⟨by simp [numConnects], ?_⟩
    simp [sleepList, List.range_succ]
  | 3 =>
    have h0 : failWorld 3 msgs 0 = ConnectOutcome.opError (msgs 0) := by
      simp [failWorld]
    have h1 : failWorld 3 msgs 1 = ConnectOutcome.opError (msgs 1) := by
      simp [failWorld]
    have h2 : failWorld 3 msgs 2 = ConnectOutcome.opError (msgs 2) := by
      simp [failWorld]
    have h3 : failWorld 3 msgs 3 = ConnectOutcome.ok := by
      simp [failWorld]
    rw [run_op_retry u _ 0 0 (msgs 0) hu h0 (by decide),
      run_op_retry u _ 1 (0 + 1) (msgs 1) hu h1 (by decide),
      run_op_retry u _ 2 (0 + 1 + 1) (msgs 2) hu h2 (by decide),
      run_ok u _ 3 (0 + 1 + 1 + 1) hu h3]
    simp only [numConnects_append, numConnects_pre, sleepList_append, sleepList_pre]
    refine ⟨by simp [numConnects], ?_⟩
    simp [sleepList, List.range_succ]
  | (n + 4) =>
    have h0 : failWorld (n + 4) msgs 0 = ConnectOutcome.opError (msgs 0) := by
      simp only [failWorld]
      rw [if_pos (by omega)]
    have h1 : failWorld (n + 4) msgs 1 = ConnectOutcome.opError (msgs 1) := by
      simp only [failWorld]
      rw [if_pos (by omega)]
    have h2 : failWorld (n + 4) msgs 2 = ConnectOutcome.opError (msgs 2) := by
      simp only [failWorld]
      rw [if_pos (by omega)]
    have h3 : failWorld (n + 4) msgs 3 = ConnectOutcome.opError (msgs 3) := by
      simp only [failWorld]
      rw [if_pos (by omega)]
    rw [run_op_retry u _ 0 0 (msgs 0) hu h0 (by decide),
      run_op_retry u _ 1 (0 + 1) (msgs 1) hu h1 (by decide),
      run_op_retry u _ 2 (0 + 1 + 1) (msgs 2) hu h2 (by decide),
      run_op_last u _ 3 (0 + 1 + 1 + 1) (msgs 3) hu h3 (by decide)]
    simp only [numConnects_append, numConnects_pre, sleepList_append, sleepList_pre]
    constructor
    · simp only [numConnects]
      omega
    · have hmin : min (n + 4) 3 = 3 := by omega
      rw [hmin]
      simp [sleepList, List.range_succ]

/-- When every connect call fails operationally, the run starting at
`retry_count = 0` makes `MAX_RETRIES + 1 = 4` attempts, prints the
terminal-failure line, and returns `None`. -/
theorem run_allFail (u : String) (msgs : Nat → String) (hu : u ≠ "") :
    (get_db_connection (some u) (fun i => ConnectOutcome.opError (msgs i)) 0 0).1 = none ∧
    numConnects (get_db_connection (some u) (fun i => ConnectOutcome.opError (msgs i)) 0 0).2 = 4 ∧
    allFailedMsg ∈ printedLines
      (get_db_connection (some u) (fun i => ConnectOutcome.opError (msgs i)) 0 0).2 := by
  rw [run_op_retry u _ 0 0 (msgs 0) hu rfl (by decide),
    run_op_retry u _ 1 (0 + 1) (msgs 1) hu rfl (by decide),
    run_op_retry u _ 2 (0 + 1 + 1) (msgs 2) hu rfl (by decide),
    run_op_last u _ 3 (0 + 1 + 1 + 1) (msgs 3) hu rfl (by decide)]
  refine ⟨rfl, ?_, ?_⟩
  · simp only [numConnects_append, numConnects_pre]
    simp [numConnects]
  · simp only [printedLines_append, printedLines_pre]
    simp [printedLines]


theorem execute_query_conn_fail (dbUrl : Option String) (cw : Nat → ConnectOutcome)
    (qw : QueryOutcome) (q : String) (p : Option (List String))
    (h : (get_db_connection dbUrl cw 0 0).1 = none) :
    execute_query dbUrl cw qw q p = (none, (get_db_connection dbUrl cw 0 0).2) := by
  simp only [execute_query]
  rw [h]

theorem execute_query_rows (dbUrl : Option String) (cw : Nat → ConnectOutcome)
    (rs : List Row) (q : String) (p : Option (List String)) (c : String)
    (h : (get_db_connection dbUrl cw 0 0).1 = some c) :
    execute_query dbUrl cw (QueryOutcome.rows rs) q p =
      (some rs, (get_db_connection dbUrl cw 0 0).2 ++
        [Event.queryExec q p, Event.close]) := by
  simp only [execute_query]
  rw [h]

theorem execute_query_raise (dbUrl : Option String) (cw : Nat → ConnectOutcome)
    (m : String) (q : String) (p : Option (List String)) (c : String)
    (h : (get_db_connection dbUrl cw 0 0).1 = some c) :
    execute_query dbUrl cw (QueryOutcome.raise m) q p =
      (none, (get_db_connection dbUrl cw 0 0).2 ++
        [Event.queryExec q p,
         Event.printLine ("Error executing query: " ++ m),
         Event.close]) := by
  simp only [execute_query]
  rw [h]


/-- C2: For every configuration in which the connection string is missing or
unset (Python-falsy), `get_db_connection` returns the failure sentinel `None`
immediately: zero connect calls, zero sleeps (hence zero retries). -/
theorem C2_unset_fails_immediately (dbUrl : Option String)
    (w : Nat → ConnectOutcome) (a : Nat) (rc : Int)
    (h : pyTruthy dbUrl = false) :
    (get_db_connection dbUrl w a rc).1 = none ∧
    numConnects (get_db_connection dbUrl w a rc).2 = 0 ∧
    sleepList (get_db_connection dbUrl w a rc).2 = [] := by
  rw [run_not_set dbUrl w a rc h]
  exact ⟨rfl, rfl, rfl⟩

/-- Witness for C2 at the concrete unset configuration. -/
theorem C2_witness :
    pyTruthy none = false ∧
    ((get_db_connection none okWorld 0 0).1 = none ∧
     numConnects (get_db_connection none okWorld 0 0).2 = 0 ∧
     sleepList (get_db_connection none okWorld 0 0).2 = []) :=
  ⟨rfl, C2_unset_fails_immediately none okWorld 0 0 rfl⟩

/-- C3: for every non-empty connection string, the string handed to the driver
on every connect call is: the original with `sslmode=require` appended exactly
once (after `?` or `&` as appropriate) when `sslmode=` is absent, and the
original unmodified when `sslmode=` is already present. -/
theorem C3_sslmode_appended_once (u : String) (w : Nat → ConnectOutcome)
    (a : Nat) (rc : Int) (hu : u ≠ "") :
    (strContainsSub u "sslmode=" = false →
      sslAdjustedUrl u = u ++ (if pyIn '?' u then "&" else "?") ++ "sslmode=require") ∧
    (strContainsSub u "sslmode=" = true → sslAdjustedUrl u = u) ∧
    (∀ v ∈ connectUrls (get_db_connection (some u) w a rc).2, v = sslAdjustedUrl u) := by
  refine ⟨?_, ?_, (run_trace_facts u w a rc hu).2.2.1⟩
  · intro h
    simp [sslAdjustedUrl, h]
  · intro h
    simp [sslAdjustedUrl, h]

/-- Witness for C3 at a concrete connection string lacking `sslmode=`. -/
theorem C3_witness :
    "postgres://u:p@h/db" ≠ "" ∧
    ((strContainsSub "postgres://u:p@h/db" "sslmode=" = false →
      sslAdjustedUrl "postgres://u:p@h/db" =
        "postgres://u:p@h/db" ++ (if pyIn '?' "postgres://u:p@h/db" then "&" else "?") ++
          "sslmode=require") ∧
    (strContainsSub "postgres://u:p@h/db" "sslmode=" = true →
      sslAdjustedUrl "postgres://u:p@h/db" = "postgres://u:p@h/db") ∧
    (∀ v ∈ connectUrls (get_db_connection (some "postgres://u:p@h/db") okWorld 0 0).2,
      v = sslAdjustedUrl "postgres://u:p@h/db")) :=
  ⟨by decide, C3_sslmode_appended_once "postgres://u:p@h/db" okWorld 0 0 (by decide)⟩

/-- C5: on every exit path of `execute_query` on which a connection was
obtained (successful fetch, or an exception in the cursor block), the
connection's `close` is called exactly once. -/
theorem C5_close_exactly_once (dbUrl : Option String) (cw : Nat → ConnectOutcome)
    (qw : QueryOutcome) (q : String) (p : Option (List String))
    (h : (get_db_connection dbUrl cw 0 0).1.isSome = true) :
    numCloses (execute_query dbUrl cw qw q p).2 = 1 := by
  obtain ⟨c, hc⟩ := Option.isSome_iff_exists.mp h
  have hrun := (run_no_close_no_query dbUrl cw 0 0).1
  cases qw with
  | rows rs =>
    rw [execute_query_rows dbUrl cw rs q p c hc]
    simp only [numCloses_append, hrun]
    rfl
  | raise m =>
    rw [execute_query_raise dbUrl cw m q p c hc]
    simp only [numCloses_append, hrun]
    rfl

/-- Witness for C5 at a concrete run in which the connection succeeds and the
cursor block raises mid-stream. -/
theorem C5_witness :
    (get_db_connection (some "x") okWorld 0 0).1.isSome = true ∧
    numCloses (execute_query (some "x") okWorld
      (QueryOutcome.raise "conversion failed") "SELECT 1" none).2 = 1 := by
  have hc : (get_db_connection (some "x") okWorld 0 0).1.isSome = true := by
    rw [run_ok "x" okWorld 0 0 (by decide) rfl]
    rfl
  exact ⟨hc, C5_close_exactly_once (some "x") okWorld
    (QueryOutcome.raise "conversion failed") "SELECT 1" none hc⟩

/-- C6: every error arising during connection acquisition (missing
configuration, exhausted retries, unexpected connect error — all of which
make `get_db_connection` return `None`) or during query execution (the
cursor block raising) makes `execute_query` return the single no-result
sentinel `None`.  The sentinel is one value, so the caller cannot tell the
failure causes apart from the return value; and the embedding is a total
function, so no exception escapes `execute_query`. -/
theorem C6_errors_become_none (dbUrl : Option String) (cw : Nat → ConnectOutcome)
    (qw : QueryOutcome) (q : String) (p : Option (List String))
    (h : (get_db_connection dbUrl cw 0 0).1 = none ∨ ∃ m, qw = QueryOutcome.raise m) :
    (execute_query dbUrl cw qw q p).1 = none := by
  rcases h with hc | ⟨m, rfl⟩
  · rw [execute_query_conn_fail dbUrl cw qw q p hc]
  · cases hc : (get_db_connection dbUrl cw 0 0).1 with
    | none =>
      rw [execute_query_conn_fail dbUrl cw _ q p hc]
    | some c =>
      rw [execute_query_raise dbUrl cw m q p c hc]

/-- Witness for C6 at the concrete unset configuration. -/
theorem C6_witness :
    ((get_db_connection none okWorld 0 0).1 = none ∨
      ∃ m, QueryOutcome.rows [] = QueryOutcome.raise m) ∧
    (execute_query none okWorld (QueryOutcome.rows []) "SELECT 1" none).1 = none := by
  have hc : (get_db_connection none okWorld 0 0).1 = none := by
    rw [run_not_set none okWorld 0 0 rfl]
  exact ⟨Or.inl hc, C6_errors_become_none none okWorld (QueryOutcome.rows []) "SELECT 1" none
    (Or.inl hc)⟩

/-- C7: when every connect call fails with an operational error, the run
starting at `retry_count = 0` makes all `MAX_RETRIES + 1 = 4` attempts, prints
the terminal "All 3 connection attempts failed" line, and returns the failure
value `None` to its caller (the embedding is a total function: the
`except` clauses of lines 54 and 67 keep any exception from escaping). -/
theorem C7_exhausted_returns_failure (u : String) (msgs : Nat → String)
    (hu : u ≠ "") :
    (get_db_connection (some u) (fun i => ConnectOutcome.opError (msgs i)) 0 0).1 = none ∧
    numConnects (get_db_connection (some u) (fun i => ConnectOutcome.opError (msgs i)) 0 0).2 =
      MAX_RETRIES.toNat + 1 ∧
    allFailedMsg ∈ printedLines
      (get_db_connection (some u) (fun i => ConnectOutcome.opError (msgs i)) 0 0).2 :=
  run_allFail u msgs hu

/-- Witness for C7 at a concrete configuration and failure messages. -/
theorem C7_witness :
    "x" ≠ "" ∧
    ((get_db_connection (some "x") (fun i => ConnectOutcome.opError ((fun _ => "timeout expired") i)) 0 0).1 = none ∧
    numConnects (get_db_connection (some "x") (fun i => ConnectOutcome.opError ((fun _ => "timeout expired") i)) 0 0).2 =
      MAX_RETRIES.toNat + 1 ∧
    allFailedMsg ∈ printedLines
      (get_db_connection (some "x") (fun i => ConnectOutcome.opError ((fun _ => "timeout expired") i)) 0 0).2) :=
  ⟨by decide, C7_exhausted_returns_failure "x" (fun _ => "timeout expired") (by decide)⟩

/-- C9: `get_db_connection` is total (it is a Lean function, defined by
well-founded recursion on `(MAX_RETRIES - retry_count).toNat`, the self-call
replacing `retry_count` by `retry_count + 1`), and for every integer starting
`retry_count` the number of connect calls — one per recursion level on the
configured path — is at most `max 0 (MAX_RETRIES - retry_count) + 1 =
(MAX_RETRIES - retry_count).toNat + 1`. -/
theorem C9_recursion_bounded (dbUrl : Option String) (w : Nat → ConnectOutcome)
    (a : Nat) (rc : Int) :
    numConnects (get_db_connection dbUrl w a rc).2 ≤ (MAX_RETRIES - rc).toNat + 1 := by
  by_cases hd : pyTruthy dbUrl = false
  · rw [run_not_set dbUrl w a rc hd]
    exact Nat.zero_le _
  · have hd' : pyTruthy dbUrl = true := by
      cases h : pyTruthy dbUrl
      · exact absurd h hd
      · rfl
    obtain ⟨u, rfl⟩ : ∃ u, dbUrl = some u := by
      cases dbUrl with
      | none => simp [pyTruthy] at hd'
      | some u => exact ⟨u, rfl⟩
    have hu : u ≠ "" := by simpa [pyTruthy] using hd'
    exact (run_trace_facts u w a rc hu).2.2.2

/-- C10: when connection acquisition fails (`get_db_connection` returns the
`None` sentinel), `execute_query` returns `None` and its trace contains no
`close` call at all — the `finally` block of lines 98–100 touches the handle
only when one was obtained. -/
theorem C10_no_close_without_conn (dbUrl : Option String)
    (cw : Nat → ConnectOutcome) (qw : QueryOutcome) (q : String)
    (p : Option (List String))
    (h : (get_db_connection dbUrl cw 0 0).1 = none) :
    (execute_query dbUrl cw qw q p).1 = none ∧
    numCloses (execute_query dbUrl cw qw q p).2 = 0 := by
  rw [execute_query_conn_fail dbUrl cw qw q p h]
  exact ⟨rfl, (run_no_close_no_query dbUrl cw 0 0).1⟩

/-- Witness for C10 at the concrete unset configuration. -/
theorem C10_witness :
    (get_db_connection none okWorld 0 0).1 = none ∧
    ((execute_query none okWorld (QueryOutcome.rows []) "SELECT 1" none).1 = none ∧
     numCloses (execute_query none okWorld (QueryOutcome.rows []) "SELECT 1" none).2 = 0) := by
  have hc : (get_db_connection none okWorld 0 0).1 = none := by
    rw [run_not_set none okWorld 0 0 rfl]
  exact ⟨hc, C10_no_close_without_conn none okWorld (QueryOutcome.rows []) "SELECT 1" none hc⟩


/-- C1 counterexample: with exactly one underlying operational failure
(`failWorld 1`, the world failing the first connect call and succeeding from
the second on), the code starting at `retry_count = 0` makes 2 connection
attempts, not `min(actual_underlying_failures, MAX_RETRIES + 1) = 1` as the
claim states. -/
theorem C1_counterexample :
    ¬ (numConnects (get_db_connection (some "x")
        (failWorld 1 (fun _ => "connection refused")) 0 0).2 =
      min 1 (MAX_RETRIES.toNat + 1)) := by
  have h := (run_failWorld "x" (fun _ => "connection refused") (by decide) 1).1
  rw [h]
  decide

/-- C1 (amended): for every sequence of `f` consecutive operational connection
failures followed by success, `get_db_connection` starting at
`retry_count = 0` makes `min (f + 1) (MAX_RETRIES + 1)` connection attempts
(not `min f (MAX_RETRIES + 1)`: the attempt that succeeds, or the final
failing attempt, is also an attempt), and the delay slept before attempt `k`
(0-indexed, `k ≥ 1`) is `RETRY_DELAY_BASE * 2 ^ (k - 1)` seconds. -/
theorem C1_attempts_and_backoff (u : String) (msgs : Nat → String) (f : Nat)
    (hu : u ≠ "") :
    numConnects (get_db_connection (some u) (failWorld f msgs) 0 0).2 =
      min (f + 1) (MAX_RETRIES.toNat + 1) ∧
    sleepList (get_db_connection (some u) (failWorld f msgs) 0 0).2 =
      (List.range (min f MAX_RETRIES.toNat)).map
        (fun k : Nat => (RETRY_DELAY_BASE : ℚ) * 2 ^ k) := by
  obtain ⟨h1, h2⟩ := run_failWorld u msgs hu f
  have h4 : MAX_RETRIES.toNat + 1 = 4 := rfl
  have h3 : MAX_RETRIES.toNat = 3 := rfl
  rw [h4, h3]
  refine ⟨h1, ?_⟩
  rw [h2]
  refine List.map_congr_left ?_
  intro k hk
  simp [retryDelay, zpow_natCast]

/-- Witness for the amended C1 at two underlying failures: three attempts,
sleeping 5 s and then 10 s. -/
theorem C1_witness :
    "x" ≠ "" ∧
    (numConnects (get_db_connection (some "x")
        (failWorld 2 (fun _ => "refused")) 0 0).2 =
      min (2 + 1) (MAX_RETRIES.toNat + 1) ∧
    sleepList (get_db_connection (some "x")
        (failWorld 2 (fun _ => "refused")) 0 0).2 =
      (List.range (min 2 MAX_RETRIES.toNat)).map
        (fun k : Nat => (RETRY_DELAY_BASE : ℚ) * 2 ^ k)) :=
  ⟨by decide, C1_attempts_and_backoff "x" (fun _ => "refused") 2 (by decide)⟩

/-- C4 counterexample: for the configured connection string
`"sql@example.com"` (which contains `@`, with `"sql"` preceding it), the
fixed `[sql_utils]` tag of the attempt line itself contains the substring
`"sql"`, so the diagnostic lines do not avoid the substring preceding `@`. -/
theorem C4_counterexample :
    ¬ (∀ l ∈ printedLines (get_db_connection (some "sql@example.com") okWorld 0 0).2,
        strContainsSub l "sql" = false) := by
  intro hall
  have hmem : ("[sql_utils] Attempting DB connection to: ...@" ++ safeUrl "sql@example.com")
      ∈ printedLines (get_db_connection (some "sql@example.com") okWorld 0 0).2 := by
    rw [run_ok "sql@example.com" okWorld 0 0 (by decide) rfl]
    simp only [printedLines_append, printedLines_pre]
    simp [preLines]
  exact absurd (hall _ hmem) (by decide)

/-- C4 (amended): the diagnostic output of `get_db_connection` depends on the
configured connection string only through the portion after the last `@`
(`safeUrl`) and through the one bit "does the whole string mention
`sslmode=`": any two non-empty connection strings agreeing on those produce
identical diagnostics under the same connect outcomes.  In particular the
credential portion before the last `@` is never interpolated into any
diagnostic line — though, as the counterexample shows, it can still occur
verbatim inside a line when it happens to coincide with fixed diagnostic
text or with part of the surfaced suffix. -/
theorem C4_amended_masking (u1 u2 : String) (w : Nat → ConnectOutcome)
    (a : Nat) (rc : Int) (hu1 : u1 ≠ "") (hu2 : u2 ≠ "")
    (hsafe : safeUrl u1 = safeUrl u2)
    (hssl : strContainsSub u1 "sslmode=" = strContainsSub u2 "sslmode=") :
    printedLines (get_db_connection (some u1) w a rc).2 =
      printedLines (get_db_connection (some u2) w a rc).2 :=
  run_printed_congr u1 u2 w hu1 hu2 hsafe hssl a rc

/-- Witness for the amended C4: a credential-bearing string and one with the
credentials replaced produce identical diagnostics. -/
theorem C4_witness :
    "user:secret@db.example.com/app" ≠ "" ∧
    "u@db.example.com/app" ≠ "" ∧
    safeUrl "user:secret@db.example.com/app" = safeUrl "u@db.example.com/app" ∧
    strContainsSub "user:secret@db.example.com/app" "sslmode=" =
      strContainsSub "u@db.example.com/app" "sslmode=" ∧
    printedLines (get_db_connection (some "user:secret@db.example.com/app") okWorld 0 0).2 =
      printedLines (get_db_connection (some "u@db.example.com/app") okWorld 0 0).2 :=
  ⟨by decide, by decide, by decide, by decide,
    C4_amended_masking "user:secret@db.example.com/app" "u@db.example.com/app"
      okWorld 0 0 (by decide) (by decide) (by decide) (by decide)⟩

/-- C8: evaluating the `__main__` block at its failing input — a reachable
database and a query result of one row, the `RealDictCursor` mapping
`{'version': 'PostgreSQL 15.3'}` — shows the bug: exactly one diagnostic
query `SELECT version();` is executed, but after printing the success line
the run terminates with an uncaught `KeyError` from `version[0][0]`
(line 111 indexes the column-name-keyed row with the integer `0`), so the
version value is never printed: the last line on stdout is the success
line. -/
theorem C8_version_print_crashes :
    (moduleMain (some "postgresql://user:pw@host/db") okWorld
      (QueryOutcome.rows [[(PyKey.str "version", "PostgreSQL 15.3")]])).2 =
        some "KeyError: 0" ∧
    queryTexts (moduleMain (some "postgresql://user:pw@host/db") okWorld
      (QueryOutcome.rows [[(PyKey.str "version", "PostgreSQL 15.3")]])).1 =
        ["SELECT version();"] ∧
    (printedLines (moduleMain (some "postgresql://user:pw@host/db") okWorld
      (QueryOutcome.rows [[(PyKey.str "version", "PostgreSQL 15.3")]])).1).getLast? =
        some "Successfully connected to PostgreSQL." := by
  have hc : (get_db_connection (some "postgresql://user:pw@host/db") okWorld 0 0).1
      = some (sslAdjustedUrl "postgresql://user:pw@host/db") := by
    rw [run_ok "postgresql://user:pw@host/db" okWorld 0 0 (by decide) rfl]
  have hex := execute_query_rows (some "postgresql://user:pw@host/db") okWorld
      [[(PyKey.str "version", "PostgreSQL 15.3")]] "SELECT version();" none _ hc
  have hq := run_no_close_no_query (some "postgresql://user:pw@host/db") okWorld 0 0
  have hbeq : (PyKey.int 0 == PyKey.str "version") = false := by decide
  simp only [moduleMain, hex, List.lookup, hbeq]
  refine ⟨trivial, ?_, ?_⟩
  · simp only [queryTexts, List.append_eq, queryTexts_append, hq.2]
    rfl
  · simp only [printedLines, List.append_eq, printedLines_append]
    rw [← List.cons_append, List.getLast?_concat]

end SqlUtils
